import Mathlib

/-!
# GridX microgrid dashboard: verification of the metric-generation and alerting engine

Shallow embedding of the simulation / alerting core of the GridX dashboard
(two JavaScript files: the converter-aware variant and the baseline
`script.js`).  JavaScript numbers are modelled as exact rationals `ℚ`;
`Math.random()` draws become explicit parameters constrained to `[0,1)`
where a claim needs the constraint.  `Math.sin((hour－6)·π/12)` is
transcendental, so the solar factor is passed as an abstract parameter
(`sinFactor`); no claim below depends on its value.  Display-only string
formatting (`toFixed`, `toLocaleTimeString`, alert description templates)
is omitted: alert drafts instead carry the embedded offending value as a
rational field.
-/

namespace GridX

/-! ## Configuration constants (the `CONFIG` object, converter-aware variant) -/

def UPDATE_INTERVAL : ℕ := 5000
def MAX_DATA_POINTS : ℕ := 20
def GEN_MIN : ℚ := 85/10
def GEN_MAX : ℚ := 152/10
def CONS_MIN : ℚ := 68/10
def CONS_MAX : ℚ := 125/10
def BATTERY_MIN : ℚ := 45
def BATTERY_MAX : ℚ := 95
def IN_V_MIN : ℚ := 10
def IN_V_MAX : ℚ := 15
def OUT_V_MIN : ℚ := 20
def OUT_V_MAX : ℚ := 28
def IN_I_MIN : ℚ := 1
def IN_I_MAX : ℚ := 4
def OUT_I_MIN : ℚ := 8/10
def OUT_I_MAX : ℚ := 25/10
def EFF_MIN : ℚ := 85
def EFF_MAX : ℚ := 96
def DUTY_MIN : ℚ := 40
def DUTY_MAX : ℚ := 65

/-! ## JavaScript numeric primitives -/

/-- JavaScript `Math.round(x)`: round half toward positive infinity. -/
def jsRound (x : ℚ) : ℤ := ⌊x + 1/2⌋

/-- Source `Math.round(x * 10) / 10`: round to one decimal place, as done for
every converter field at creation. -/
def round1 (x : ℚ) : ℚ := (jsRound (x * 10) : ℚ) / 10

/-- JavaScript `a || b` for an optional numeric `a`: `undefined`/`null`
and `0` are falsy, so they yield the default `b`. -/
def jsOr (o : Option ℚ) (d : ℚ) : ℚ :=
  match o with
  | none => d
  | some v => if v = 0 then d else v

/-- JavaScript `a || b` for an optional integer (the `data.timestamp ||
Date.now()` pattern). -/
def jsOrInt (o : Option ℤ) (d : ℤ) : ℤ :=
  match o with
  | none => d
  | some v => if v = 0 then d else v

/-! ## Data model -/

/-- One converter sub-reading as stored on a generated reading: every
field already rounded to one decimal place. -/
structure ConverterReading where
  inputVoltage : ℚ
  outputVoltage : ℚ
  inputCurrent : ℚ
  outputCurrent : ℚ
  outputPower : ℚ
  dutyCycle : ℚ
  efficiency : ℚ
  deriving DecidableEq, Repr

/-- One full reading produced by `generateSensorData` per tick. -/
structure Reading where
  generation : ℚ
  consumption : ℚ
  batteryLevel : ℤ
  efficiency : ℤ
  converter : ConverterReading
  deriving DecidableEq, Repr

inductive AlertKind where
  | warning
  | error
  | info
  deriving DecidableEq, Repr

inductive Severity where
  | low
  | medium
  | high
  deriving DecidableEq, Repr

/-- An alert draft produced by the converter threshold checks, before an
identifier and timestamp are assigned.  `value` is the offending reading
value embedded into the formatted description string in the source. -/
structure AlertDraft where
  kind : AlertKind
  title : String
  severity : Severity
  value : ℚ
  deriving DecidableEq, Repr

/-- A stored alert (member of the `systemAlerts` array).  The
display-only description string is omitted. -/
structure Alert where
  id : ℤ
  kind : AlertKind
  title : String
  severity : Severity
  timestamp : ℤ
  deriving DecidableEq, Repr

/-! ## The signal generator (`generateSensorData`, converter-aware variant)

The lets of the source function become named intermediate definitions so
that theorems can speak about the pre-rounding values; `generateSensorData`
assembles them in the source's order.  Randomness: `rGen, rCons, rIV, rOV,
rCE, rSys` are the six `Math.random()` draws, in source order of first
use.  `currentBattery` is the integer parsed back from the storage display
(defaulting to 75 in the source when absent). -/

structure Rand where
  rGen : ℚ
  rCons : ℚ
  rIV : ℚ
  rOV : ℚ
  rCE : ℚ
  rSys : ℚ
  deriving DecidableEq, Repr

/-- Generation base: half-sine solar shape for hour ∈ [6,18], `GEN_MIN`
otherwise.  `sinFactor` stands for `Math.sin((hour－6)·π/12)`. -/
def generationBase (hour : ℕ) (sinFactor : ℚ) : ℚ :=
  if 6 ≤ hour ∧ hour ≤ 18 then
    GEN_MIN + (GEN_MAX - GEN_MIN) * sinFactor
  else GEN_MIN

/-- Consumption base: raised by 70% of the range during hours [7,22]. -/
def consumptionBase (hour : ℕ) : ℚ :=
  if 7 ≤ hour ∧ hour ≤ 22 then
    CONS_MIN + (CONS_MAX - CONS_MIN) * (7/10)
  else CONS_MIN

/-- Consumption before the `Math.max(0,·)` applied in the returned
object: base plus noise `(rCons－0.5)·2`. -/
def consumptionOf (hour : ℕ) (rCons : ℚ) : ℚ :=
  consumptionBase hour + (rCons - 1/2) * 2

/-- Source: `inputVoltage = IN_V_MIN + (IN_V_MAX－IN_V_MIN)·(0.8 + rIV·0.4)`. -/
def inputVoltageOf (rIV : ℚ) : ℚ :=
  IN_V_MIN + (IN_V_MAX - IN_V_MIN) * (8/10 + rIV * (4/10))

/-- Source: `outputVoltage = OUT_V_MIN + (OUT_V_MAX－OUT_V_MIN)·(0.7 + rOV·0.3)`. -/
def outputVoltageOf (rOV : ℚ) : ℚ :=
  OUT_V_MIN + (OUT_V_MAX - OUT_V_MIN) * (7/10 + rOV * (3/10))

/-- Source: `inputCurrent = IN_I_MIN + (IN_I_MAX－IN_I_MIN)·(consumption / CONS_MAX)`. -/
def inputCurrentOf (hour : ℕ) (rCons : ℚ) : ℚ :=
  IN_I_MIN + (IN_I_MAX - IN_I_MIN) * (consumptionOf hour rCons / CONS_MAX)

/-- Source: `outputCurrent = inputCurrent · (inputVoltage/outputVoltage) · 0.92`. -/
def outputCurrentOf (hour : ℕ) (rCons rIV rOV : ℚ) : ℚ :=
  inputCurrentOf hour rCons * (inputVoltageOf rIV / outputVoltageOf rOV) * (92/100)

/-- Source: `dutyCycle = Math.min(DUTY_MAX, Math.max(DUTY_MIN, (1－Vin/Vout)·100))`. -/
def dutyCycleOf (rIV rOV : ℚ) : ℚ :=
  min DUTY_MAX (max DUTY_MIN ((1 - inputVoltageOf rIV / outputVoltageOf rOV) * 100))

/-- Converter efficiency before rounding:
`Math.max(EFF_MIN, EFF_MAX·loadEfficiency + (rCE－0.5)·2)` where
`loadEfficiency = 1 － |outputCurrent/OUT_I_MAX － 0.7|·0.1`.  Note the
source applies only a lower `Math.max` clamp here, with no upper
`Math.min`. -/
def converterEfficiencyOf (hour : ℕ) (rCons rIV rOV rCE : ℚ) : ℚ :=
  let loadFactor := outputCurrentOf hour rCons rIV rOV / OUT_I_MAX
  let loadEfficiency := 1 - |loadFactor - 7/10| * (1/10)
  max EFF_MIN (EFF_MAX * loadEfficiency + (rCE - 1/2) * 2)

/-- Function `generateSensorData` (converter-aware variant): assembles the reading,
rounding each converter field to one decimal place. -/
def generateSensorData (hour : ℕ) (sinFactor : ℚ) (currentBattery : ℤ)
    (r : Rand) : Reading :=
  let generation := generationBase hour sinFactor + (r.rGen - 1/2) * 2
  let consumption := consumptionOf hour r.rCons
  let energyBalance := generation - consumption
  let newBatteryLevel :=
    max BATTERY_MIN (min BATTERY_MAX ((currentBattery : ℚ) + energyBalance * 2))
  { generation := max 0 generation
    consumption := max 0 consumption
    batteryLevel := jsRound newBatteryLevel
    efficiency := jsRound (92 + r.rSys * 6)
    converter :=
      { inputVoltage := round1 (inputVoltageOf r.rIV)
        outputVoltage := round1 (outputVoltageOf r.rOV)
        inputCurrent := round1 (inputCurrentOf hour r.rCons)
        outputCurrent := round1 (outputCurrentOf hour r.rCons r.rIV r.rOV)
        outputPower := round1 (outputVoltageOf r.rOV * outputCurrentOf hour r.rCons r.rIV r.rOV)
        dutyCycle := round1 (dutyCycleOf r.rIV r.rOV)
        efficiency := round1 (converterEfficiencyOf hour r.rCons r.rIV r.rOV r.rCE) } }

/-! ## Converter alert evaluation (`checkConverterAlerts`)

The source builds a local `alerts` array by three independent threshold
checks (efficiency, output voltage, duty cycle, in that order), then
materialises each draft with a fresh id and timestamp and `unshift`s it
onto `systemAlerts`.  The draft-building part is pure; the insertion loop
is modelled as a store transformer. -/

/-- Draft pushed when `converterData.efficiency < 85`. -/
def effDraft (c : ConverterReading) : AlertDraft :=
  { kind := .error, title := "Critical Efficiency Drop", severity := .high,
    value := c.efficiency }

/-- Draft pushed when `|outputVoltage － 24.0| > 0.48`. -/
def voltDraft (c : ConverterReading) : AlertDraft :=
  { kind := .warning, title := "Output Voltage Out of Range", severity := .medium,
    value := c.outputVoltage }

/-- Draft pushed when `dutyCycle > 90`. -/
def dutyDraft (c : ConverterReading) : AlertDraft :=
  { kind := .error, title := "Critical Duty Cycle", severity := .high,
    value := c.dutyCycle }

/-- The local `alerts` array built by the three conditional pushes of
`checkConverterAlerts`. -/
def checkConverterDrafts (c : ConverterReading) : List AlertDraft :=
  let alerts : List AlertDraft := []
  let alerts := if c.efficiency < 85 then alerts ++ [effDraft c] else alerts
  let alerts := if |c.outputVoltage - 24| > 48/100 then alerts ++ [voltDraft c] else alerts
  let alerts := if c.dutyCycle > 90 then alerts ++ [dutyDraft c] else alerts
  alerts

/-- Materialisation of a draft in the `alerts.forEach` loop: `id =
Date.now() + Math.floor(Math.random()·1000)` (here `idOf k` for the k-th
iteration's draw), `timestamp = new Date()`. -/
def materializeDraft (idOf : ℕ → ℤ) (now : ℤ) (k : ℕ) (d : AlertDraft) : Alert :=
  { id := idOf k, kind := d.kind, title := d.title, severity := d.severity,
    timestamp := now }

/-- Function `checkConverterAlerts` as a transformer of the
`systemAlerts` store: builds the drafts, then `unshift`s each
materialised alert onto the front of the store. -/
def checkConverterAlerts (c : ConverterReading) (idOf : ℕ → ℤ) (now : ℤ)
    (store : List Alert) : List Alert :=
  (checkConverterDrafts c).enum.foldl
    (fun st kd => materializeDraft idOf now kd.1 kd.2 :: st) store

/-! ## Alert store operations -/

/-- Function `dismissAlert`: the source filters `systemAlerts` keeping
every alert whose id differs from the dismissed one
(`filter(alert => alert.id !== alertId)`). -/
def dismissAlert (alertId : ℤ) (store : List Alert) : List Alert :=
  store.filter (fun alert => alert.id ≠ alertId)

/-- Function `clearAlerts`: `systemAlerts = []`. -/
def clearAlerts (_store : List Alert) : List Alert := []

/-! ## Random alert injection (`generateRandomAlert`)

A template carries the fields copied into the new alert (the description
display string omitted).  The converter-aware variant has a 6-template
catalog, fires with probability 0.08, and draws the id as
`Date.now() + Math.floor(Math.random()·1000)`; the baseline `script.js`
has a 4-template catalog, fires with probability 0.1, and uses
`Date.now()` alone as id.  Draws: `rFire` is the firing draw, `rPick` the
catalog index draw, `rId` the id offset draw. -/

structure AlertTemplate where
  kind : AlertKind
  title : String
  severity : Severity
  deriving DecidableEq, Repr

def alertTypesConv : List AlertTemplate :=
  [ { kind := .warning, title := "DC-DC Converter Temperature", severity := .medium },
    { kind := .info, title := "Optimal Load Condition", severity := .low },
    { kind := .error, title := "Output Voltage Ripple", severity := .high },
    { kind := .warning, title := "Duty Cycle Limit", severity := .medium },
    { kind := .info, title := "Switching Frequency Stable", severity := .low },
    { kind := .error, title := "Input Current Surge", severity := .high } ]

def alertTypesBase : List AlertTemplate :=
  [ { kind := .warning, title := "High Energy Demand", severity := .medium },
    { kind := .info, title := "Weather Update", severity := .low },
    { kind := .error, title := "Communication Error", severity := .high },
    { kind := .warning, title := "Battery Temperature", severity := .medium } ]

/-- Function `generateRandomAlert`, converter-aware variant: fires only
when `systemAlerts.length < 5 && Math.random() < 0.08`, then `unshift`s a
template chosen by `Math.floor(rPick · length)`. -/
def generateRandomAlertConv (store : List Alert) (rFire rPick rId : ℚ)
    (now : ℤ) : List Alert :=
  if store.length < 5 ∧ rFire < 8/100 then
    let t := alertTypesConv.getD (⌊rPick * 6⌋).toNat
      { kind := .warning, title := "", severity := .medium }
    { id := now + ⌊rId * 1000⌋, kind := t.kind, title := t.title,
      severity := t.severity, timestamp := now } :: store
  else store

/-- Function `generateRandomAlert`, baseline `script.js` variant: fires
only when `systemAlerts.length < 5 && Math.random() < 0.1`; the id is
`Date.now()` with no random offset. -/
def generateRandomAlertBase (store : List Alert) (rFire rPick : ℚ)
    (now : ℤ) : List Alert :=
  if store.length < 5 ∧ rFire < 1/10 then
    let t := alertTypesBase.getD (⌊rPick * 4⌋).toNat
      { kind := .warning, title := "", severity := .medium }
    { id := now, kind := t.kind, title := t.title,
      severity := t.severity, timestamp := now } :: store
  else store

/-! ## Chart data (`chartData` / `updateChartData`)

Both variants keep three parallel arrays and, after pushing a new point,
`shift` all three when the label count exceeds `MAX_DATA_POINTS`.  The
time label is the locale-formatted timestamp (display formatting, taken
as an abstract `String` here). -/

structure ChartData where
  labels : List String
  generation : List ℚ
  consumption : List ℚ
  deriving DecidableEq, Repr

/-- The initial module-level `chartData` object: three empty arrays. -/
def emptyChartData : ChartData := { labels := [], generation := [], consumption := [] }

/-- Function `updateChartData`: push the new point onto all three arrays,
then drop the oldest entry of each when the cap is exceeded. -/
def updateChartData (cd : ChartData) (timeLabel : String) (gen cons : ℚ) :
    ChartData :=
  let labels := cd.labels ++ [timeLabel]
  let generation := cd.generation ++ [gen]
  let consumption := cd.consumption ++ [cons]
  if labels.length > MAX_DATA_POINTS then
    { labels := labels.tail, generation := generation.tail,
      consumption := consumption.tail }
  else
    { labels := labels, generation := generation, consumption := consumption }

/-! ## External ingest (`updateDashboardWithRealData`, converter-aware variant)

The observable behaviour is the sequence of sink updates performed (each
guarded by a field-presence check) together with the chart point passed to
`updateChartData`.  Display formatting and DOM targets are abstracted; the
inductive `DashUpdate` records which sink was written and with what
value. -/

/-- A partially populated external reading payload: any field may be
absent (`undefined`/`null`). -/
structure ConverterPayload where
  inputVoltage : Option ℚ
  outputVoltage : Option ℚ
  inputCurrent : Option ℚ
  outputCurrent : Option ℚ
  outputPower : Option ℚ
  dutyCycle : Option ℚ
  efficiency : Option ℚ
  deriving DecidableEq, Repr

structure RealPayload where
  generation : Option ℚ
  consumption : Option ℚ
  batteryLevel : Option ℚ
  efficiency : Option ℚ
  converter : Option ConverterPayload
  systemStatus : Option String
  timestamp : Option ℤ
  deriving DecidableEq, Repr

/-- One sink write performed by the ingest path. -/
inductive DashUpdate where
  | metricGeneration (v : ℚ)
  | metricConsumption (v : ℚ)
  | metricStorage (v : ℚ)
  | batteryIndicator (v : ℚ)
  | efficiencyText (v : ℚ)
  | convInputVoltage (v : ℚ)
  | convInputCurrent (v : ℚ)
  | convOutputCurrent (v : ℚ)
  | convOutputPower (v : ℚ)
  | convDutyCycle (v : ℚ)
  | gaugeVoltage (v : ℚ)
  | gaugeEfficiency (v : ℚ)
  | systemStatus (s : String)
  deriving DecidableEq, Repr

/-- Presence-guarded update: emit the write only when the field is
present. -/
def optUpd (o : Option ℚ) (f : ℚ → DashUpdate) : List DashUpdate :=
  match o with
  | none => []
  | some v => [f v]

/-- Function `updateConverterMetrics`: five presence-guarded writes. -/
def updateConverterMetrics (c : ConverterPayload) : List DashUpdate :=
  optUpd c.inputVoltage .convInputVoltage ++
  optUpd c.inputCurrent .convInputCurrent ++
  optUpd c.outputCurrent .convOutputCurrent ++
  optUpd c.outputPower .convOutputPower ++
  optUpd c.dutyCycle .convDutyCycle

/-- The chart point the ingest path builds before calling
`updateChartData`: absent fields are replaced by the source's
`|| 0` / `|| 95` / `|| Date.now()` defaults. -/
structure ChartPoint where
  generation : ℚ
  consumption : ℚ
  batteryLevel : ℚ
  timestamp : ℤ
  efficiency : ℚ
  deriving DecidableEq, Repr

/-- Function `updateDashboardWithRealData` (converter-aware variant):
returns the list of sink writes performed, in source order, and the chart
point handed to `updateChartData`. -/
def updateDashboardWithRealData (d : RealPayload) (now : ℤ) :
    List DashUpdate × ChartPoint :=
  let upds :=
    optUpd d.generation .metricGeneration ++
    optUpd d.consumption .metricConsumption ++
    (optUpd d.batteryLevel .metricStorage ++ optUpd d.batteryLevel .batteryIndicator) ++
    optUpd d.efficiency .efficiencyText ++
    (match d.converter with
     | none => []
     | some c =>
        updateConverterMetrics c ++
        optUpd c.outputVoltage .gaugeVoltage ++
        optUpd c.efficiency .gaugeEfficiency) ++
    (match d.systemStatus with
     | none => []
     | some s => [DashUpdate.systemStatus s])
  let chartDataPoint : ChartPoint :=
    { generation := jsOr d.generation 0
      consumption := jsOr d.consumption 0
      batteryLevel := jsOr d.batteryLevel 0
      timestamp := jsOrInt d.timestamp now
      efficiency := jsOr d.efficiency 95 }
  (upds, chartDataPoint)

/-! ## Concrete values used in witnesses and counterexamples -/

/-- A concrete alert shaped like the first seeded demo alert, used in
witnesses. -/
def demoAlert : Alert :=
  { id := 1, kind := .warning, title := "DC-DC Converter Efficiency Low",
    severity := .medium, timestamp := 0 }

/-- A chart filled to exactly `MAX_DATA_POINTS` entries. -/
def chartAtCap : ChartData :=
  { labels := List.replicate 20 "", generation := List.replicate 20 0,
    consumption := List.replicate 20 0 }

/-- Twin alerts sharing id 7 (ids are collision-tolerant in the source). -/
def twinA : Alert :=
  { id := 7, kind := .warning, title := "First Twin", severity := .low, timestamp := 0 }

def twinB : Alert :=
  { id := 7, kind := .info, title := "Second Twin", severity := .low, timestamp := 0 }

/-! ## Helper lemmas -/

theorem jsRound_mono {x y : ℚ} (h : x ≤ y) : jsRound x ≤ jsRound y := by
  exact Int.floor_le_floor (by linarith)

theorem round1_mono {x y : ℚ} (h : x ≤ y) : round1 x ≤ round1 y := by
  unfold round1
  have := jsRound_mono (x := x * 10) (y := y * 10) (by linarith)
  have hc : ((jsRound (x * 10) : ℚ)) ≤ ((jsRound (y * 10) : ℚ)) := by exact_mod_cast this
  linarith

theorem checkConverterDrafts_eq (c : ConverterReading) :
    checkConverterDrafts c =
      (if c.efficiency < 85 then [effDraft c] else []) ++
      ((if |c.outputVoltage - 24| > 48/100 then [voltDraft c] else []) ++
       (if c.dutyCycle > 90 then [dutyDraft c] else [])) := by
  unfold checkConverterDrafts
  split_ifs <;> simp

theorem effDraft_mem_iff (c : ConverterReading) :
    effDraft c ∈ checkConverterDrafts c ↔ c.efficiency < 85 := by
  rw [checkConverterDrafts_eq]
  split_ifs <;> simp_all [effDraft, voltDraft, dutyDraft]

theorem voltDraft_mem_iff (c : ConverterReading) :
    voltDraft c ∈ checkConverterDrafts c ↔ |c.outputVoltage - 24| > 48/100 := by
  rw [checkConverterDrafts_eq]
  split_ifs <;> simp_all [effDraft, voltDraft, dutyDraft]

theorem dutyDraft_mem_iff (c : ConverterReading) :
    dutyDraft c ∈ checkConverterDrafts c ↔ c.dutyCycle > 90 := by
  rw [checkConverterDrafts_eq]
  split_ifs <;> simp_all [effDraft, voltDraft, dutyDraft]

theorem checkConverterDrafts_sublist (c : ConverterReading) :
    List.Sublist (checkConverterDrafts c) [effDraft c, voltDraft c, dutyDraft c] := by
  rw [checkConverterDrafts_eq]
  show List.Sublist _ ([effDraft c] ++ ([voltDraft c] ++ [dutyDraft c]))
  refine List.Sublist.append ?_ (List.Sublist.append ?_ ?_) <;> split_ifs <;> simp

theorem round1_sixtyfive : round1 65 = 65 := by norm_num [round1, jsRound]

theorem round1_eightyfive : round1 85 = 85 := by norm_num [round1, jsRound]

theorem round1_outv_min : round1 (128/5) = 128/5 := by norm_num [round1, jsRound]

theorem round1_ninetyseven : round1 97 = 97 := by norm_num [round1, jsRound]

theorem outputVoltageOf_ge (rOV : ℚ) (h : 0 ≤ rOV) : 128/5 ≤ outputVoltageOf rOV := by
  unfold outputVoltageOf OUT_V_MIN OUT_V_MAX
  nlinarith

theorem dutyCycleOf_le (rIV rOV : ℚ) : dutyCycleOf rIV rOV ≤ 65 := by
  unfold dutyCycleOf DUTY_MAX
  exact min_le_left _ _

theorem converterEfficiencyOf_ge (hour : ℕ) (rCons rIV rOV rCE : ℚ) :
    85 ≤ converterEfficiencyOf hour rCons rIV rOV rCE := by
  unfold converterEfficiencyOf EFF_MIN
  exact le_max_left _ _

theorem converterEfficiencyOf_lt (hour : ℕ) (rCons rIV rOV rCE : ℚ) (h : rCE < 1) :
    converterEfficiencyOf hour rCons rIV rOV rCE < 97 := by
  unfold converterEfficiencyOf EFF_MIN EFF_MAX
  apply max_lt (by norm_num)
  have habs : 0 ≤ |outputCurrentOf hour rCons rIV rOV / OUT_I_MAX - 7/10| := abs_nonneg _
  nlinarith

/-! ## Claim theorems -/

/-- C2.  The converter alert evaluation is a deterministic function of
the `ConverterReading` returning at most three drafts, always a sublist
of the fixed order [efficiency check, voltage check, duty-cycle check];
the efficiency draft is present iff `efficiency < 85`, the voltage draft
iff `|outputVoltage − 24.0| > 0.48`, and the duty-cycle draft iff
`dutyCycle > 90`, each check independent of the others. -/
theorem checkConverterAlerts_draft_characterization (c : ConverterReading) :
    (checkConverterDrafts c).length ≤ 3
    ∧ List.Sublist (checkConverterDrafts c) [effDraft c, voltDraft c, dutyDraft c]
    ∧ (effDraft c ∈ checkConverterDrafts c ↔ c.efficiency < 85)
    ∧ (voltDraft c ∈ checkConverterDrafts c ↔ |c.outputVoltage - 24| > 48/100)
    ∧ (dutyDraft c ∈ checkConverterDrafts c ↔ c.dutyCycle > 90) :=
  ⟨le_trans (List.Sublist.length_le (checkConverterDrafts_sublist c)) (by simp),
   checkConverterDrafts_sublist c, effDraft_mem_iff c, voltDraft_mem_iff c,
   dutyDraft_mem_iff c⟩

/-- C9.  Every synthetic reading has `dutyCycle ≤ 65` and
`efficiency ≥ 85` (after rounding), so the "Critical Efficiency Drop" and
"Critical Duty Cycle" branches of the alert evaluator never fire on
synthetic readings. -/
theorem synthetic_critical_branches_unreachable (hour : ℕ) (sinF : ℚ) (bat : ℤ)
    (r : Rand) :
    (generateSensorData hour sinF bat r).converter.dutyCycle ≤ 65
    ∧ 85 ≤ (generateSensorData hour sinF bat r).converter.efficiency
    ∧ effDraft ((generateSensorData hour sinF bat r).converter) ∉
        checkConverterDrafts ((generateSensorData hour sinF bat r).converter)
    ∧ dutyDraft ((generateSensorData hour sinF bat r).converter) ∉
        checkConverterDrafts ((generateSensorData hour sinF bat r).converter) := by
  have hd : (generateSensorData hour sinF bat r).converter.dutyCycle
      = round1 (dutyCycleOf r.rIV r.rOV) := rfl
  have he : (generateSensorData hour sinF bat r).converter.efficiency
      = round1 (converterEfficiencyOf hour r.rCons r.rIV r.rOV r.rCE) := rfl
  have h1 : (generateSensorData hour sinF bat r).converter.dutyCycle ≤ 65 := by
    rw [hd, ← round1_sixtyfive]
    exact round1_mono (dutyCycleOf_le r.rIV r.rOV)
  have h2 : 85 ≤ (generateSensorData hour sinF bat r).converter.efficiency := by
    rw [he, ← round1_eightyfive]
    exact round1_mono (converterEfficiencyOf_ge hour r.rCons r.rIV r.rOV r.rCE)
  refine ⟨h1, h2, ?_, ?_⟩
  · rw [effDraft_mem_iff]
    linarith
  · rw [dutyDraft_mem_iff]
    linarith

/-- C4.  Every synthetic reading has rounded `outputVoltage ≥ 25.6 V`,
which exceeds the `24.0 ± 0.48 V` tolerance, so the "Output Voltage Out
of Range" draft is produced by the alert evaluation on every synthetic
tick. -/
theorem synthetic_voltage_alert_always_fires (hour : ℕ) (sinF : ℚ) (bat : ℤ)
    (r : Rand) (h : 0 ≤ r.rOV) :
    128/5 ≤ (generateSensorData hour sinF bat r).converter.outputVoltage
    ∧ voltDraft ((generateSensorData hour sinF bat r).converter) ∈
        checkConverterDrafts ((generateSensorData hour sinF bat r).converter) := by
  have hov : (generateSensorData hour sinF bat r).converter.outputVoltage
      = round1 (outputVoltageOf r.rOV) := rfl
  have h1 : 128/5 ≤ (generateSensorData hour sinF bat r).converter.outputVoltage := by
    rw [hov, ← round1_outv_min]
    exact round1_mono (outputVoltageOf_ge r.rOV h)
  refine ⟨h1, ?_⟩
  rw [voltDraft_mem_iff]
  have habs : |(generateSensorData hour sinF bat r).converter.outputVoltage - 24|
      = (generateSensorData hour sinF bat r).converter.outputVoltage - 24 :=
    abs_of_nonneg (by linarith)
  rw [habs]
  linarith

/-- Witness for C4 at the all-zero random draw. -/
theorem synthetic_voltage_alert_always_fires_witness :
    (0:ℚ) ≤ (Rand.mk 0 0 0 0 0 0).rOV
    ∧ (128/5 ≤ (generateSensorData 0 0 75 (Rand.mk 0 0 0 0 0 0)).converter.outputVoltage
       ∧ voltDraft ((generateSensorData 0 0 75 (Rand.mk 0 0 0 0 0 0)).converter) ∈
           checkConverterDrafts ((generateSensorData 0 0 75 (Rand.mk 0 0 0 0 0 0)).converter)) :=
  ⟨le_refl 0, synthetic_voltage_alert_always_fires 0 0 75 (Rand.mk 0 0 0 0 0 0) (le_refl 0)⟩

/-- C1 counterexample.  At hour 12 (solar factor 1), battery 75, draws
`rGen=0, rCons=1/2, rIV=0, rOV=0, rCE=99/100, rSys=0`, the stored
converter efficiency is 96.8, strictly above `EFF_MAX = 96`: the claimed
upper clamp does not exist in the code (only `Math.max` with `EFF_MIN` is
applied). -/
theorem converterEfficiency_exceeds_EFF_MAX :
    EFF_MAX <
      (generateSensorData 12 1 75 (Rand.mk 0 (1/2) 0 0 (99/100) 0)).converter.efficiency := by
  have hval : (generateSensorData 12 1 75
      (Rand.mk 0 (1/2) 0 0 (99/100) 0)).converter.efficiency = 484/5 := by
    norm_num [generateSensorData, converterEfficiencyOf, outputCurrentOf, inputCurrentOf,
      inputVoltageOf, outputVoltageOf, consumptionOf, consumptionBase, round1, jsRound,
      EFF_MIN, EFF_MAX, OUT_I_MAX, IN_I_MIN, IN_I_MAX, IN_V_MIN, IN_V_MAX, OUT_V_MIN,
      OUT_V_MAX, CONS_MIN, CONS_MAX, abs_of_nonneg, max_eq_right, max_eq_left]
  rw [hval]
  norm_num [EFF_MAX]

/-- C1 amended.  The stored converter efficiency is clamped below at
`EFF_MIN = 85`, and (because the load term is at most `EFF_MAX` and the
noise strictly below 1) never exceeds 97 after rounding; it is not
clamped at `EFF_MAX = 96` and can exceed it. -/
theorem converterEfficiency_lower_clamped (hour : ℕ) (sinF : ℚ) (bat : ℤ)
    (r : Rand) (h : r.rCE < 1) :
    85 ≤ (generateSensorData hour sinF bat r).converter.efficiency
    ∧ (generateSensorData hour sinF bat r).converter.efficiency ≤ 97 := by
  have he : (generateSensorData hour sinF bat r).converter.efficiency
      = round1 (converterEfficiencyOf hour r.rCons r.rIV r.rOV r.rCE) := rfl
  constructor
  · rw [he, ← round1_eightyfive]
    exact round1_mono (converterEfficiencyOf_ge hour r.rCons r.rIV r.rOV r.rCE)
  · rw [he, ← round1_ninetyseven]
    exact round1_mono (le_of_lt (converterEfficiencyOf_lt hour r.rCons r.rIV r.rOV r.rCE h))

/-- Witness for the amended C1 bound at the all-zero random draw. -/
theorem converterEfficiency_lower_clamped_witness :
    (Rand.mk 0 0 0 0 0 0).rCE < 1
    ∧ (85 ≤ (generateSensorData 0 0 75 (Rand.mk 0 0 0 0 0 0)).converter.efficiency
       ∧ (generateSensorData 0 0 75 (Rand.mk 0 0 0 0 0 0)).converter.efficiency ≤ 97) :=
  ⟨by norm_num, converterEfficiency_lower_clamped 0 0 75 (Rand.mk 0 0 0 0 0 0) (by norm_num)⟩

/-- C3 counterexample.  At hour 0, draws `rCons=1/2`, others 0: the
stored `outputPower` is 33.9 (the unrounded product `25.6 × 1.324225 =
33.90016` rounded), while the product of the stored rounded fields is
`25.6 × 1.3 = 33.28`, which rounds to 33.3: the stored power does not
agree with the rounded product of the stored fields. -/
theorem outputPower_rounded_product_mismatch :
    (generateSensorData 0 0 75 (Rand.mk 0 (1/2) 0 0 0 0)).converter.outputPower ≠
      round1 ((generateSensorData 0 0 75 (Rand.mk 0 (1/2) 0 0 0 0)).converter.outputVoltage *
        (generateSensorData 0 0 75 (Rand.mk 0 (1/2) 0 0 0 0)).converter.outputCurrent) := by
  have h1 : (generateSensorData 0 0 75 (Rand.mk 0 (1/2) 0 0 0 0)).converter.outputPower
      = 339/10 := by
    norm_num [generateSensorData, outputCurrentOf, inputCurrentOf, inputVoltageOf,
      outputVoltageOf, consumptionOf, consumptionBase, round1, jsRound, IN_I_MIN, IN_I_MAX,
      IN_V_MIN, IN_V_MAX, OUT_V_MIN, OUT_V_MAX, CONS_MIN, CONS_MAX]
  have h2 : round1
      ((generateSensorData 0 0 75 (Rand.mk 0 (1/2) 0 0 0 0)).converter.outputVoltage *
        (generateSensorData 0 0 75 (Rand.mk 0 (1/2) 0 0 0 0)).converter.outputCurrent)
      = 333/10 := by
    norm_num [generateSensorData, outputCurrentOf, inputCurrentOf, inputVoltageOf,
      outputVoltageOf, consumptionOf, consumptionBase, round1, jsRound, IN_I_MIN, IN_I_MAX,
      IN_V_MIN, IN_V_MAX, OUT_V_MIN, OUT_V_MAX, CONS_MIN, CONS_MAX]
  rw [h1, h2]
  norm_num

/-- C3 amended.  The stored `outputPower` of every generated reading is
the one-decimal rounding of the product of the pre-rounding (unrounded)
output voltage and output current, not of the stored rounded fields. -/
theorem outputPower_from_unrounded_product (hour : ℕ) (sinF : ℚ) (bat : ℤ) (r : Rand) :
    (generateSensorData hour sinF bat r).converter.outputPower =
      round1 (outputVoltageOf r.rOV * outputCurrentOf hour r.rCons r.rIV r.rOV) := rfl

theorem foldl_cons_eq_reverse_map_append {α β : Type} (l : List α) (f : α → β)
    (init : List β) :
    l.foldl (fun st x => f x :: st) init = (l.map f).reverse ++ init := by
  induction l generalizing init with
  | nil => simp
  | cons a t ih => simp [ih]

/-- C5 counterexample.  On a reading with efficiency 80 (below the
threshold), evaluating alerts does not leave the alert store unchanged:
`checkConverterAlerts` itself inserts into the store, contradicting the
claimed no-side-effect contract. -/
theorem checkConverterAlerts_mutates_store :
    checkConverterAlerts (ConverterReading.mk 14 24 2 1 24 50 80) (fun _ => 0) 0 [] ≠ [] := by
  norm_num [checkConverterAlerts, checkConverterDrafts, effDraft, voltDraft, dutyDraft,
    materializeDraft]

/-- C5 amended.  Evaluating a `ConverterReading` mutates the alert store
directly: the evaluator itself assigns identifiers and timestamps and
`unshift`s each triggered draft onto the front of the store (so the
resulting store is the reversed list of materialised drafts prepended to
the old store; in particular the store is unchanged exactly when no
threshold is violated). -/
theorem checkConverterAlerts_prepends_materialized_drafts (c : ConverterReading)
    (idOf : ℕ → ℤ) (now : ℤ) (store : List Alert) :
    checkConverterAlerts c idOf now store =
      ((checkConverterDrafts c).enum.map
        (fun kd => materializeDraft idOf now kd.1 kd.2)).reverse ++ store := by
  unfold checkConverterAlerts
  exact foldl_cons_eq_reverse_map_append _ _ _

/-- C6.  Neither variant of the random alert injector ever fires once the
store holds 5 or more alerts: for any random draw the store is returned
unchanged. -/
theorem generateRandomAlert_respects_cap (store : List Alert) (rFire rPick rId : ℚ)
    (now : ℤ) (h : 5 ≤ store.length) :
    generateRandomAlertConv store rFire rPick rId now = store
    ∧ generateRandomAlertBase store rFire rPick now = store := by
  constructor
  · unfold generateRandomAlertConv
    rw [if_neg (fun hc => absurd hc.1 (Nat.not_lt.mpr h))]
  · unfold generateRandomAlertBase
    rw [if_neg (fun hc => absurd hc.1 (Nat.not_lt.mpr h))]

/-- Witness for C6 on a store of exactly 5 alerts. -/
theorem generateRandomAlert_respects_cap_witness :
    5 ≤ (List.replicate 5 demoAlert).length
    ∧ (generateRandomAlertConv (List.replicate 5 demoAlert) 0 0 0 0 =
          List.replicate 5 demoAlert
       ∧ generateRandomAlertBase (List.replicate 5 demoAlert) 0 0 0 =
          List.replicate 5 demoAlert) :=
  ⟨by simp, generateRandomAlert_respects_cap (List.replicate 5 demoAlert) 0 0 0 0 (by simp)⟩

theorem tail_append_singleton {α : Type} (xs : List α) (x : α) (h : xs ≠ []) :
    (xs ++ [x]).tail = xs.tail ++ [x] := by
  cases xs with
  | nil => simp at h
  | cons a t => simp

theorem updateChartData_step (cd : ChartData) (l : String) (g c : ℚ)
    (hg : cd.generation.length = cd.labels.length)
    (hc : cd.consumption.length = cd.labels.length)
    (hlen : cd.labels.length ≤ MAX_DATA_POINTS) :
    (updateChartData cd l g c).generation.length = (updateChartData cd l g c).labels.length
    ∧ (updateChartData cd l g c).consumption.length
        = (updateChartData cd l g c).labels.length
    ∧ (updateChartData cd l g c).labels.length ≤ MAX_DATA_POINTS := by
  simp only [updateChartData, MAX_DATA_POINTS] at *
  split_ifs with hcond <;> simp_all [List.length_tail]

theorem chart_foldl_inv (pts : List (String × ℚ × ℚ)) (cd : ChartData)
    (hg : cd.generation.length = cd.labels.length)
    (hc : cd.consumption.length = cd.labels.length)
    (hlen : cd.labels.length ≤ MAX_DATA_POINTS) :
    (pts.foldl (fun s p => updateChartData s p.1 p.2.1 p.2.2) cd).generation.length
      = (pts.foldl (fun s p => updateChartData s p.1 p.2.1 p.2.2) cd).labels.length
    ∧ (pts.foldl (fun s p => updateChartData s p.1 p.2.1 p.2.2) cd).consumption.length
      = (pts.foldl (fun s p => updateChartData s p.1 p.2.1 p.2.2) cd).labels.length
    ∧ (pts.foldl (fun s p => updateChartData s p.1 p.2.1 p.2.2) cd).labels.length
      ≤ MAX_DATA_POINTS := by
  induction pts generalizing cd with
  | nil => exact ⟨hg, hc, hlen⟩
  | cons p t ih =>
    obtain ⟨a, b, d⟩ := updateChartData_step cd p.1 p.2.1 p.2.2 hg hc hlen
    exact ih _ a b d

/-- C7.  Starting from the empty chart, after any sequence of appends the
three chart sequences have equal length, none exceeding
`MAX_DATA_POINTS`; and at the cap an append evicts the oldest entry of
each of the three sequences (FIFO). -/
theorem chartData_aligned_capped_fifo :
    (∀ pts : List (String × ℚ × ℚ),
      (pts.foldl (fun s p => updateChartData s p.1 p.2.1 p.2.2)
          emptyChartData).generation.length
        = (pts.foldl (fun s p => updateChartData s p.1 p.2.1 p.2.2)
            emptyChartData).labels.length
      ∧ (pts.foldl (fun s p => updateChartData s p.1 p.2.1 p.2.2)
            emptyChartData).consumption.length
        = (pts.foldl (fun s p => updateChartData s p.1 p.2.1 p.2.2)
            emptyChartData).labels.length
      ∧ (pts.foldl (fun s p => updateChartData s p.1 p.2.1 p.2.2)
            emptyChartData).labels.length ≤ MAX_DATA_POINTS)
    ∧ (∀ (cd : ChartData) (l : String) (g c : ℚ),
        cd.labels.length = MAX_DATA_POINTS →
        cd.generation.length = MAX_DATA_POINTS →
        cd.consumption.length = MAX_DATA_POINTS →
        updateChartData cd l g c =
          ChartData.mk (cd.labels.tail ++ [l]) (cd.generation.tail ++ [g])
            (cd.consumption.tail ++ [c])) := by
  constructor
  · intro pts
    exact chart_foldl_inv pts emptyChartData rfl rfl (by simp [emptyChartData])
  · intro cd l g c h1 h2 h3
    have hne1 : cd.labels ≠ [] := by
      intro hx
      rw [hx] at h1
      simp [MAX_DATA_POINTS] at h1
    have hne2 : cd.generation ≠ [] := by
      intro hx
      rw [hx] at h2
      simp [MAX_DATA_POINTS] at h2
    have hne3 : cd.consumption ≠ [] := by
      intro hx
      rw [hx] at h3
      simp [MAX_DATA_POINTS] at h3
    unfold updateChartData
    rw [if_pos (by simp [h1, MAX_DATA_POINTS])]
    rw [tail_append_singleton _ _ hne1, tail_append_singleton _ _ hne2,
      tail_append_singleton _ _ hne3]

/-- Witness for C7: at the cap, appending evicts the oldest point. -/
theorem chartData_aligned_capped_fifo_witness :
    updateChartData chartAtCap "t" 1 2 =
      ChartData.mk (chartAtCap.labels.tail ++ ["t"]) (chartAtCap.generation.tail ++ [1])
        (chartAtCap.consumption.tail ++ [2]) :=
  chartData_aligned_capped_fifo.2 chartAtCap "t" 1 2
    (by simp [chartAtCap, MAX_DATA_POINTS]) (by simp [chartAtCap, MAX_DATA_POINTS])
    (by simp [chartAtCap, MAX_DATA_POINTS])

/-- C8 counterexample.  Dismissing id 7 on a store holding two alerts
with id 7 removes BOTH (the source filters on `id !== alertId`), whereas
the claim says the later same-id alert stays in place. -/
theorem dismissAlert_removes_all_twins :
    dismissAlert 7 [twinA, twinB] = [] ∧ twinB ∉ dismissAlert 7 [twinA, twinB] := by
  constructor <;> norm_num [dismissAlert, twinA, twinB]

/-- C8 amended.  `dismissAlert` removes EVERY alert whose id matches,
preserving the relative order of the rest; when no alert carries the id
it is a no-op leaving size and order unchanged. -/
theorem dismissAlert_filter_characterization (alertId : ℤ) (store : List Alert) :
    ((∀ a ∈ store, a.id ≠ alertId) → dismissAlert alertId store = store)
    ∧ List.Sublist (dismissAlert alertId store) store
    ∧ (∀ a, a ∈ dismissAlert alertId store ↔ a ∈ store ∧ a.id ≠ alertId) := by
  refine ⟨?_, ?_, ?_⟩
  · intro h
    unfold dismissAlert
    rw [List.filter_eq_self.mpr]
    intro a ha
    simpa using h a ha
  · exact List.filter_sublist _
  · intro a
    simp [dismissAlert, List.mem_filter]

/-- Witness for C8: dismissing an absent id leaves the store unchanged. -/
theorem dismissAlert_filter_characterization_witness :
    dismissAlert 9 [twinA] = [twinA] :=
  (dismissAlert_filter_characterization 9 [twinA]).1 (by norm_num [twinA])

theorem mem_optUpd {x : DashUpdate} {o : Option ℚ} {f : ℚ → DashUpdate} :
    x ∈ optUpd o f ↔ ∃ v, o = some v ∧ x = f v := by
  cases o <;> simp [optUpd]

/-- C10 counterexample.  On a payload with every optional field absent,
the ingest path still performs a chart update and fills the chart point
with fixed defaults (0 for generation/consumption/battery, 95 for
efficiency, the current time for the timestamp) instead of skipping it. -/
theorem realData_chart_defaults_counterexample :
    (updateDashboardWithRealData
        (RealPayload.mk none none none none none none none) 123).2
      = ChartPoint.mk 0 0 0 123 95 := by
  norm_num [updateDashboardWithRealData, jsOr, jsOrInt]

/-- C10 amended.  Absent top-level fields and absent converter sub-fields
skip their corresponding metric/gauge updates; but the chart-point update
is not skipped: absent (or zero, by JS falsiness) generation,
consumption and battery are replaced by 0, absent efficiency by the
fixed default 95, and an absent timestamp by the current time. -/
theorem realData_presence_checks_and_chart_defaults (d : RealPayload) (now : ℤ) :
    (d.generation = none →
      ∀ v, DashUpdate.metricGeneration v ∉ (updateDashboardWithRealData d now).1)
    ∧ (d.consumption = none →
      ∀ v, DashUpdate.metricConsumption v ∉ (updateDashboardWithRealData d now).1)
    ∧ (d.batteryLevel = none →
      ∀ v, DashUpdate.metricStorage v ∉ (updateDashboardWithRealData d now).1
        ∧ DashUpdate.batteryIndicator v ∉ (updateDashboardWithRealData d now).1)
    ∧ (d.efficiency = none →
      ∀ v, DashUpdate.efficiencyText v ∉ (updateDashboardWithRealData d now).1)
    ∧ (∀ c, d.converter = some c →
        (c.outputVoltage = none →
          ∀ v, DashUpdate.gaugeVoltage v ∉ (updateDashboardWithRealData d now).1)
        ∧ (c.efficiency = none →
          ∀ v, DashUpdate.gaugeEfficiency v ∉ (updateDashboardWithRealData d now).1)
        ∧ (c.dutyCycle = none →
          ∀ v, DashUpdate.convDutyCycle v ∉ (updateDashboardWithRealData d now).1))
    ∧ (updateDashboardWithRealData d now).2 =
        ChartPoint.mk (jsOr d.generation 0) (jsOr d.consumption 0) (jsOr d.batteryLevel 0)
          (jsOrInt d.timestamp now) (jsOr d.efficiency 95) := by
  obtain ⟨g, cns, bat, eff, conv, status, ts⟩ := d
  refine ⟨?_, ?_, ?_, ?_, ?_, rfl⟩
  · rintro rfl v
    cases conv <;> cases status <;>
      simp [updateDashboardWithRealData, updateConverterMetrics, mem_optUpd]
  · rintro rfl v
    cases conv <;> cases status <;>
      simp [updateDashboardWithRealData, updateConverterMetrics, mem_optUpd]
  · rintro rfl v
    cases conv <;> cases status <;>
      constructor <;>
        simp [updateDashboardWithRealData, updateConverterMetrics, mem_optUpd]
  · rintro rfl v
    cases conv <;> cases status <;>
      simp [updateDashboardWithRealData, updateConverterMetrics, mem_optUpd]
  · rintro c rfl
    refine ⟨?_, ?_, ?_⟩ <;> rintro hnone v <;> cases status <;>
      simp [updateDashboardWithRealData, updateConverterMetrics, mem_optUpd, hnone]

/-- Witness for C10 on the all-absent payload. -/
theorem realData_presence_checks_witness :
    DashUpdate.metricGeneration 5 ∉
      (updateDashboardWithRealData
        (RealPayload.mk none none none none none none none) 123).1 :=
  (realData_presence_checks_and_chart_defaults
    (RealPayload.mk none none none none none none none) 123).1 rfl 5

end GridX
